import Mathlib

/-!
Verification of the new-item detection and deduplication pipeline of
`riyasewana_ad_alerts.py`.

The script polls classified-ad listing pages, detects listings whose
identifier (the stripped `href` of the post's anchor) is not yet in a
SQLite table `posts (id TEXT PRIMARY KEY, title TEXT)`, saves the new
rows with `INSERT OR IGNORE`, and sends one consolidated e-mail alert
per cycle.

Shallow embedding conventions:
* the SQLite table is a list of `(id, title)` rows, in insertion order;
  `INSERT OR IGNORE` is a fold that appends a row only when its id is
  not already present;
* the Selenium fetch (driver setup, `driver.get`, `WebDriverWait`) is an
  external collaborator; its outcome per source is a `FetchOutcome`:
  driver-setup failure, fetch failure (timeout / selector not found), or
  a list of raw DOM posts;
* a raw DOM post may lack its anchor element, and the anchor may lack an
  `href` attribute; per-item extraction returns an `Option`, with `none`
  standing for the exception caught by the `except: continue` of the
  per-item loop;
* the shared dict `new_posts` is modelled as the ordered list of entries
  the per-source tasks write; per the concurrency design each task
  writes only its own subject key, exactly once, so the dict is in
  bijection with this list of written entries;
* log calls are recorded as `LogEvent`s in the order they happen.
-/

/-- A raw anchor element inside a fetched post: `link_tag.text` and the
`href` attribute, which `get_attribute` may report as absent (Python
`None`, so that `.strip()` on it raises). -/
structure Anchor where
  text : String
  href : Option String
  deriving DecidableEq, Repr

/-- A raw post element as returned by the fetch; `find_element(By.TAG_NAME, "a")`
raises when the post has no anchor, modelled by `anchor = none`. -/
structure RawPost where
  anchor : Option Anchor
  deriving DecidableEq, Repr

/-- One polling target: a URL plus the human-readable subject used as the
key of the shared `new_posts` dict ( `zip(WEB_PAGE_URLS, WEB_PAGE_URL_SUBJECTS)` ). -/
structure Source where
  url : String
  subject : String
  deriving DecidableEq, Repr

/-- Outcome of the Selenium part of `check_new_posts` for one source:
`setup_driver` raised, the fetch raised (timeout / selector not found),
or a list of raw posts was obtained. -/
inductive FetchOutcome where
  | driverError (msg : String)
  | fetchError (msg : String)
  | posts (ps : List RawPost)
  deriving DecidableEq, Repr

/-- A log record emitted through the script's logger. -/
inductive LogEvent where
  | info (msg : String)
  | error (msg : String)
  deriving DecidableEq, Repr

/-- Python's `str.strip` on the underlying character list: drop leading
whitespace. -/
def dropLeadingWs : List Char → List Char
  | [] => []
  | c :: cs => if c.isWhitespace then dropLeadingWs cs else c :: cs

/-- Python's `str.strip()`: remove leading and trailing whitespace. -/
def strip (s : String) : String :=
  ⟨(dropLeadingWs (dropLeadingWs s.data).reverse).reverse⟩

/-- The SQLite table `posts (id TEXT PRIMARY KEY, title TEXT)` as the list
of its rows in insertion order. -/
abbrev DB : Type := List (String × String)

/-- The set of ids present in the table (the primary-key column). -/
def dbIds (db : DB) : List String := db.map Prod.fst

/-- Model of `get_known_posts`: `SELECT id FROM posts` — the known-identifier set. -/
def get_known_posts (db : DB) : List String := dbIds db

/-- One step of `INSERT OR IGNORE INTO posts (id, title) VALUES (?, ?)`:
a row whose id is already present is ignored, otherwise it is appended. -/
def insertOrIgnore (db : DB) (row : String × String) : DB :=
  if row.1 ∈ dbIds db then db else db ++ [row]

/-- Model of `save_new_posts`: `executemany` of `INSERT OR IGNORE` over the list. -/
def save_new_posts (db : DB) (new_posts : List (String × String)) : DB :=
  new_posts.foldl insertOrIgnore db

/-- The per-item extraction inside the loop of `check_new_posts`
(lines 189-198): find the anchor, strip its text (`post_title`), read and
strip its `href` (`unique_id`).  `none` models the exception that the
`except: continue` catches (missing anchor, or `href` absent so that
`.strip()` raises on `None`). -/
def extract_post (p : RawPost) : Option (String × String) :=
  match p.anchor with
  | none => none
  | some a =>
    match a.href with
    | none => none
    | some link => some (strip link, strip a.text)

/-- The `for post in posts:` loop of `check_new_posts` building
`found_posts`: items whose extraction raises are skipped, and an item is
appended iff its `unique_id` is not in the frozen `known_posts` set. -/
def found_posts_loop (known : List String) : List RawPost → List (String × String)
  | [] => []
  | p :: ps =>
    match extract_post p with
    | none => found_posts_loop known ps
    | some (uid, title) =>
      if uid ∈ known then found_posts_loop known ps
      else (uid, title) :: found_posts_loop known ps

/-- Result of one `check_new_posts` task: the entry it wrote under its
subject into the shared `new_posts` dict (if any), and its log records. -/
structure CheckResult where
  entry : Option (String × List (String × String))
  logs : List LogEvent
  deriving DecidableEq, Repr

/-- Model of `check_new_posts` (lines 164-208): driver-setup failure is logged and
the task returns; a fetch failure is logged by the outer `except`; an
empty `found_posts` raises `no posts found`, also logged by the outer
`except`; a non-empty `found_posts` is written once to the shared dict
under the source's subject.  No branch lets an exception escape. -/
def check_new_posts (known : List String) (outcome : FetchOutcome)
    (website_url website_subject : String) : CheckResult :=
  let checking := LogEvent.info (website_subject ++ " :: checking new posts...")
  match outcome with
  | .driverError e =>
    { entry := none, logs := [checking, .error (website_subject ++ " :: " ++ e)] }
  | .fetchError e =>
    { entry := none
      logs := [checking,
        .error (website_subject ++ " :: error fetching posts [" ++ e ++ "]")] }
  | .posts ps =>
    let found_posts := found_posts_loop known ps
    if found_posts.isEmpty then
      { entry := none
        logs := [checking, .error (website_subject ++ " :: no posts found")] }
    else
      { entry := some (website_url, found_posts)
        logs := [checking,
          .info (website_subject ++ " :: found " ++ toString found_posts.length
            ++ " new post(s)")] }

/-- Model of `get_available_threads` (lines 65-78): sample per-core utilization,
count the cores below the 20 percent idleness threshold
( `sum(1 for usage in cpu_usage if usage < 20)` ), and fall back to 1 if
none is available ( `max(1, idle_cores)` ).  The sampled per-core
percentages are modelled as exact rationals. -/
def get_available_threads (cpu_usage : List ℚ) : ℕ :=
  let idle_cores := (cpu_usage.filter (fun usage => usage < 20)).length
  max 1 idle_cores

/-- The entry one source's task writes into the shared `new_posts` dict,
keyed by the source's subject (line 202), when it writes one. -/
def source_entry (known : List String) (fetch : Source → FetchOutcome)
    (s : Source) : Option (String × String × List (String × String)) :=
  (check_new_posts known (fetch s) s.url s.subject).entry.map
    (fun e => (s.subject, e))

/-- The fan-out of lines 253-259: one `check_new_posts` task per source in
`zip(WEB_PAGE_URLS, WEB_PAGE_URL_SUBJECTS)`; the shared `new_posts` dict is
the list of entries the tasks wrote.  Per the design each task writes at
most once, under its own subject key, so this list is the dict's content. -/
def run_detection (known : List String) (sources : List Source)
    (fetch : Source → FetchOutcome) :
    List (String × String × List (String × String)) :=
  sources.filterMap (source_entry known fetch)

/-- Model of `[post for _, posts in new_posts.values() for post in posts]`
(line 262): the merged list of all sources' new items. -/
def flatten_new_posts
    (np : List (String × String × List (String × String))) :
    List (String × String) :=
  (np.map (fun e => e.2.2)).flatten

/-- An observable step of one cycle of `run_parallel_scraping`:
`save_new_posts` with the merged rows, `send_email_alert` with the
`new_posts` dict, or the `no new posts at this time` branch. -/
inductive CycleEvent where
  | saveEv (rows : List (String × String))
  | notifyEv (results : List (String × String × List (String × String)))
  | noNewEv
  deriving DecidableEq, Repr

/-- Model of `run_parallel_scraping` (lines 243-265): read the known set once,
fan out the detection tasks, join, and — when the dict is non-empty —
save the merged new rows and then send the alert.  Returns the resulting
database together with the trace of cycle events in program order, each
paired with the database state at the moment the event fires. -/
def run_parallel_scraping (db : DB) (sources : List Source)
    (fetch : Source → FetchOutcome) : DB × List (CycleEvent × DB) :=
  let known := get_known_posts db
  let new_posts := run_detection known sources fetch
  if new_posts.isEmpty then
    (db, [(.noNewEv, db)])
  else
    let flat := flatten_new_posts new_posts
    let db' := save_new_posts db flat
    (db', [(.saveEv flat, db), (.notifyEv new_posts, db')])

/-- An observable step of the body of main's `while True` loop. -/
inductive StepEvent where
  | slept (minutes : ℕ)
  | loggedError (msg : String)
  deriving DecidableEq, Repr

/-- One iteration of the `while True` body of `main` (lines 273-278),
given the outcome of `run_parallel_scraping()` — which raises when the
store cannot be read, saving fails, or sending the e-mail fails: on
success the body sleeps `SCRAPER_FREQUENCY_MINUTES * 60`; a raise jumps
over the sleep to the `except` clause, which only logs the error. -/
def main_iteration (frequency_minutes : ℕ)
    (outcome : Except String Unit) : List StepEvent :=
  match outcome with
  | .ok _ => [.slept frequency_minutes]
  | .error e => [.loggedError e]

/-- The `while True:` loop of `main`: it runs one iteration per cycle
outcome and never terminates on its own, so any finite sequence of cycle
outcomes is processed in full, one iteration each. -/
def main_loop (frequency_minutes : ℕ)
    (outcomes : List (Except String Unit)) : List (List StepEvent) :=
  outcomes.map (main_iteration frequency_minutes)

/-- Whether a `FetchOutcome` is one of the two failure modes of the
Selenium part of `check_new_posts` (driver setup raised, or the fetch
raised). -/
def fetch_failed : FetchOutcome → Bool
  | .driverError _ => true
  | .fetchError _ => true
  | .posts _ => false

/-! ## Helper lemmas about the store -/

/-- An `INSERT OR IGNORE` never removes a row. -/
theorem mem_insertOrIgnore {db : DB} {row r : String × String}
    (h : r ∈ db) : r ∈ insertOrIgnore db row := by
  unfold insertOrIgnore
  split
  · exact h
  · exact List.mem_append_left _ h

/-- A `save_new_posts` never removes a row. -/
theorem mem_save_new_posts {db : DB} {l : List (String × String)}
    {r : String × String} (h : r ∈ db) : r ∈ save_new_posts db l := by
  induction l generalizing db with
  | nil => exact h
  | cons a l ih => exact ih (mem_insertOrIgnore h)

/-- A known id stays known across `save_new_posts`. -/
theorem dbIds_mono {db : DB} {l : List (String × String)} {i : String}
    (h : i ∈ dbIds db) : i ∈ dbIds (save_new_posts db l) := by
  rcases List.mem_map.1 h with ⟨r, hr, hid⟩
  exact List.mem_map.2 ⟨r, mem_save_new_posts hr, hid⟩

/-- After an `INSERT OR IGNORE` of a row, its id is present. -/
theorem id_mem_insertOrIgnore (db : DB) (row : String × String) :
    row.1 ∈ dbIds (insertOrIgnore db row) := by
  unfold insertOrIgnore
  split
  · assumption
  · simp [dbIds]

/-- Every id of the saved batch is present after `save_new_posts`. -/
theorem batch_ids_mem_save {l : List (String × String)}
    {r : String × String} (h : r ∈ l) (db : DB) :
    r.1 ∈ dbIds (save_new_posts db l) := by
  induction l generalizing db with
  | nil => cases h
  | cons a l ih =>
    rcases List.mem_cons.1 h with h | h
    · subst h
      show r.1 ∈ dbIds (save_new_posts (insertOrIgnore db r) l)
      exact dbIds_mono (id_mem_insertOrIgnore db r)
    · exact ih h (insertOrIgnore db a)

/-- Saving a batch whose ids are all present already is a no-op. -/
theorem save_new_posts_noop {db : DB} {l : List (String × String)}
    (h : ∀ r ∈ l, r.1 ∈ dbIds db) : save_new_posts db l = db := by
  induction l generalizing db with
  | nil => rfl
  | cons a l ih =>
    have ha : insertOrIgnore db a = db := by
      unfold insertOrIgnore
      rw [if_pos (h a (List.mem_cons_self a l))]
    show save_new_posts (insertOrIgnore db a) l = db
    rw [ha]
    exact ih fun r hr => h r (List.mem_cons_of_mem a hr)

/-! ## Helper lemmas about the per-source loop -/

/-- Unfolding equation for the cons case of the per-item loop. -/
theorem found_posts_loop_cons (known : List String) (p : RawPost)
    (ps : List RawPost) :
    found_posts_loop known (p :: ps) =
      match extract_post p with
      | none => found_posts_loop known ps
      | some (uid, title) =>
        if uid ∈ known then found_posts_loop known ps
        else (uid, title) :: found_posts_loop known ps := rfl

/-- Cons equation of the loop when extraction raises: the item is
skipped. -/
theorem found_posts_loop_cons_none {p : RawPost}
    (known : List String) (ps : List RawPost)
    (hext : extract_post p = none) :
    found_posts_loop known (p :: ps) = found_posts_loop known ps := by
  rw [found_posts_loop_cons, hext]

/-- Cons equation of the loop when extraction succeeds. -/
theorem found_posts_loop_cons_some {p : RawPost} {uid title : String}
    (known : List String) (ps : List RawPost)
    (hext : extract_post p = some (uid, title)) :
    found_posts_loop known (p :: ps) =
      if uid ∈ known then found_posts_loop known ps
      else (uid, title) :: found_posts_loop known ps := by
  rw [found_posts_loop_cons, hext]

/-- An identifier in the frozen known set is never appended to
`found_posts`. -/
theorem known_not_in_found {known : List String} {uid : String}
    (hk : uid ∈ known) (ps : List RawPost) :
    uid ∉ (found_posts_loop known ps).map Prod.fst := by
  induction ps with
  | nil => simp [found_posts_loop]
  | cons p ps ih =>
    rcases hext : extract_post p with _ | ⟨u, t⟩
    · rw [found_posts_loop_cons_none known ps hext]
      exact ih
    · rw [found_posts_loop_cons_some known ps hext]
      by_cases hu : u ∈ known
      · simpa [hu] using ih
      · simp only [hu, if_false, List.map_cons]
        intro hmem
        rcases List.mem_cons.1 hmem with hmem | hmem
        · exact hu (hmem ▸ hk)
        · exact ih hmem

/-- Every extractable identifier of a fetched batch is either already
known or appears among the ids `found_posts` collects. -/
theorem extracted_covered {known : List String} {ps : List RawPost}
    {p : RawPost} {uid title : String}
    (hp : p ∈ ps) (he : extract_post p = some (uid, title)) :
    uid ∈ known ∨ uid ∈ (found_posts_loop known ps).map Prod.fst := by
  induction ps with
  | nil => cases hp
  | cons q ps ih =>
    rcases List.mem_cons.1 hp with hp | hp
    · subst hp
      by_cases hk : uid ∈ known
      · exact Or.inl hk
      · right
        rw [found_posts_loop_cons_some known ps he]
        simp [hk]
    · rcases ih hp with h | h
      · exact Or.inl h
      · right
        rcases hq : extract_post q with _ | ⟨u, t⟩
        · rw [found_posts_loop_cons_none known ps hq]
          exact h
        · rw [found_posts_loop_cons_some known ps hq]
          by_cases hu : u ∈ known
          · simpa [hu] using h
          · simp only [hu, if_false, List.map_cons]
            exact List.mem_cons_of_mem _ h

/-- If every extractable identifier of the batch is known, the loop
collects nothing. -/
theorem found_posts_loop_eq_nil {known : List String} {ps : List RawPost}
    (h : ∀ p ∈ ps, ∀ uid title, extract_post p = some (uid, title) →
      uid ∈ known) :
    found_posts_loop known ps = [] := by
  induction ps with
  | nil => rfl
  | cons p ps ih =>
    rcases hp : extract_post p with _ | ⟨u, t⟩
    · rw [found_posts_loop_cons_none known ps hp]
      exact ih fun q hq => h q (List.mem_cons_of_mem p hq)
    · rw [found_posts_loop_cons_some known ps hp,
        if_pos (h p (List.mem_cons_self p ps) u t hp)]
      exact ih fun q hq => h q (List.mem_cons_of_mem p hq)

/-- Unfolding equation for one cycle, with the branch condition and both
branches spelled out. -/
theorem run_parallel_scraping_eq (db : DB) (sources : List Source)
    (fetch : Source → FetchOutcome) :
    run_parallel_scraping db sources fetch =
      if (run_detection (get_known_posts db) sources fetch).isEmpty then
        (db, [(.noNewEv, db)])
      else
        (save_new_posts db
          (flatten_new_posts (run_detection (get_known_posts db) sources fetch)),
         [(.saveEv
            (flatten_new_posts (run_detection (get_known_posts db) sources fetch)),
           db),
          (.notifyEv (run_detection (get_known_posts db) sources fetch),
           save_new_posts db
             (flatten_new_posts
               (run_detection (get_known_posts db) sources fetch)))]) := rfl

/-- The entry a task writes for a successful fetch: none when the loop
collected nothing, otherwise the url with the collected list. -/
theorem check_new_posts_posts_entry (known : List String)
    (ps : List RawPost) (url subj : String) :
    (check_new_posts known (.posts ps) url subj).entry =
      if (found_posts_loop known ps).isEmpty then none
      else some (url, found_posts_loop known ps) := by
  by_cases hf : (found_posts_loop known ps).isEmpty
  · simp [check_new_posts, hf]
  · simp [check_new_posts, hf]

/-- A failed fetch (driver setup or page fetch raised) writes no entry. -/
theorem check_failed_entry_none {o : FetchOutcome}
    (ho : fetch_failed o = true) (known : List String)
    (url subj : String) :
    (check_new_posts known o url subj).entry = none := by
  rcases o with e | e | ps
  · rfl
  · rfl
  · simp [fetch_failed] at ho

/-- A task that writes no entry contributes nothing to the dict. -/
theorem source_entry_none {known : List String}
    {fetch : Source → FetchOutcome} {s : Source}
    (h : (check_new_posts known (fetch s) s.url s.subject).entry = none) :
    source_entry known fetch s = none := by
  unfold source_entry
  rw [h]
  rfl

/-! ## Claim theorems -/

/-- C7: `get_available_threads` returns at least 1 for every possible
sampled per-core utilization, including when zero cores are below the
20 percent idleness threshold; when at least one core is idle it returns
exactly the count of cores sampled below the threshold. -/
theorem c7_available_concurrency_floor (cpu_usage : List ℚ) :
    1 ≤ get_available_threads cpu_usage ∧
    (0 < (cpu_usage.filter (fun usage => usage < 20)).length →
      get_available_threads cpu_usage =
        (cpu_usage.filter (fun usage => usage < 20)).length) := by
  have h : get_available_threads cpu_usage =
      max 1 ((cpu_usage.filter (fun usage => usage < 20)).length) := rfl
  rw [h]
  omega

/-- Witness for C7 at a concrete load sample: cores at 5, 50 and 10
percent give two idle cores and a budget of exactly 2. -/
theorem c7_witness :
    0 < (([5, 50, 10] : List ℚ).filter (fun usage => usage < 20)).length ∧
    get_available_threads [5, 50, 10] =
      (([5, 50, 10] : List ℚ).filter (fun usage => usage < 20)).length :=
  ⟨by decide, (c7_available_concurrency_floor [5, 50, 10]).2 (by decide)⟩

/-- C8: a raw item whose extraction is structurally incomplete (no anchor
element, or no `href` attribute, so the per-item `try` raises and hits
`except: continue`) is skipped: the loop's result over the whole batch is
exactly its result over the batch with the item removed, so the remaining
items are still processed and the incomplete item never reaches the Cycle
Result.  The loop itself is a total function — the `except: continue`
means no per-item error escapes it. -/
theorem c8_incomplete_item_skipped (known : List String)
    (pre post : List RawPost) (p : RawPost)
    (h : extract_post p = none) :
    found_posts_loop known (pre ++ p :: post) =
      found_posts_loop known (pre ++ post) := by
  induction pre with
  | nil => simpa using found_posts_loop_cons_none known post h
  | cons q pre ih =>
    rcases hq : extract_post q with _ | ⟨u, t⟩
    · simp only [List.cons_append]
      rw [found_posts_loop_cons_none known _ hq,
        found_posts_loop_cons_none known _ hq, ih]
    · simp only [List.cons_append]
      rw [found_posts_loop_cons_some known _ hq,
        found_posts_loop_cons_some known _ hq, ih]

/-- Witness for C8: an anchor-less item between two complete items is
skipped and the two complete items are still collected. -/
theorem c8_witness :
    extract_post ⟨none⟩ = none ∧
    found_posts_loop []
        ([⟨some ⟨"Car A", some "a"⟩⟩] ++
          (⟨none⟩ : RawPost) :: [⟨some ⟨"Car B", some "b"⟩⟩]) =
      found_posts_loop []
        ([⟨some ⟨"Car A", some "a"⟩⟩] ++ [⟨some ⟨"Car B", some "b"⟩⟩]) :=
  ⟨rfl,
    c8_incomplete_item_skipped [] [⟨some ⟨"Car A", some "a"⟩⟩]
      [⟨some ⟨"Car B", some "b"⟩⟩] ⟨none⟩ rfl⟩

/-- C5: `save_new_posts` is idempotent with first-write-wins semantics:
`INSERT OR IGNORE` of a row whose id is already stored is a no-op (the
stored title is unchanged because the whole table is unchanged), and
saving the same batch twice leaves the table exactly as saving it once. -/
theorem c5_save_idempotent (db : DB) (row : String × String)
    (l : List (String × String)) :
    (row.1 ∈ dbIds db → insertOrIgnore db row = db) ∧
    save_new_posts (save_new_posts db l) l = save_new_posts db l := by
  constructor
  · intro h
    unfold insertOrIgnore
    rw [if_pos h]
  · exact save_new_posts_noop fun r hr => batch_ids_mem_save hr db

/-- Witness for C5: re-inserting id `a` with a different title leaves the
row `("a", "t")` untouched, and a double save of a concrete batch equals
a single save. -/
theorem c5_witness :
    insertOrIgnore [("a", "t")] ("a", "u") = [("a", "t")] ∧
    save_new_posts (save_new_posts [] [("a", "t"), ("b", "s")])
        [("a", "t"), ("b", "s")] =
      save_new_posts [] [("a", "t"), ("b", "s")] :=
  ⟨(c5_save_idempotent [("a", "t")] ("a", "u") []).1 (by decide),
    (c5_save_idempotent [] ("a", "t") [("a", "t"), ("b", "s")]).2⟩

/-- C3: the store grows monotonically — `save_new_posts` never removes or
overwrites a stored `(id, title)` row, a whole cycle (whatever each
source's fetch returns, including zero items or a failure) preserves
every stored row, and an item whose identifier is already in the frozen
known set is never collected as new. -/
theorem c3_store_monotone (db : DB) (sources : List Source)
    (fetch : Source → FetchOutcome) (rows : List (String × String))
    (known : List String) (ps : List RawPost) (uid : String) :
    (∀ r ∈ db, r ∈ save_new_posts db rows) ∧
    (∀ r ∈ db, r ∈ (run_parallel_scraping db sources fetch).1) ∧
    (uid ∈ known → uid ∉ (found_posts_loop known ps).map Prod.fst) := by
  refine ⟨fun r hr => mem_save_new_posts hr, fun r hr => ?_,
    fun hk => known_not_in_found hk ps⟩
  simp only [run_parallel_scraping]
  split
  · exact hr
  · exact mem_save_new_posts hr

/-- Witness for C3: the stored row survives a save of another row and a
cycle whose only source fetch fails, and a known id is not re-collected
from a re-fetched batch. -/
theorem c3_witness :
    ("a", "t") ∈ save_new_posts [("a", "t")] [("b", "s")] ∧
    ("a", "t") ∈ (run_parallel_scraping [("a", "t")] [⟨"u", "A"⟩]
      (fun _ => .fetchError "timeout")).1 ∧
    "a" ∉ (found_posts_loop ["a"]
      [⟨some ⟨"Car A", some "a"⟩⟩]).map Prod.fst :=
  ⟨(c3_store_monotone [("a", "t")] [⟨"u", "A"⟩]
      (fun _ => .fetchError "timeout") [("b", "s")] ["a"]
      [⟨some ⟨"Car A", some "a"⟩⟩] "a").1 ("a", "t") (by decide),
    (c3_store_monotone [("a", "t")] [⟨"u", "A"⟩]
      (fun _ => .fetchError "timeout") [("b", "s")] ["a"]
      [⟨some ⟨"Car A", some "a"⟩⟩] "a").2.1 ("a", "t") (by decide),
    (c3_store_monotone [("a", "t")] [⟨"u", "A"⟩]
      (fun _ => .fetchError "timeout") [("b", "s")] ["a"]
      [⟨some ⟨"Car A", some "a"⟩⟩] "a").2.2 (by decide)⟩

/-- C10: one iteration of main's `while True` body sleeps exactly when
`run_parallel_scraping()` returned without raising; a raise (store
unreadable, save failed, e-mail failed) is logged and the iteration ends
with no sleep, so the next cycle starts immediately; and the loop
processes every cycle outcome — it never terminates because of an
error. -/
theorem c10_sleep_only_after_clean_cycle (freq : ℕ)
    (outcomes : List (Except String Unit)) (e : String) :
    (main_loop freq outcomes).length = outcomes.length ∧
    main_iteration freq (.ok ()) = [.slept freq] ∧
    main_iteration freq (.error e) = [.loggedError e] ∧
    (∀ o : Except String Unit,
      StepEvent.slept freq ∈ main_iteration freq o ↔ o = .ok ()) := by
  refine ⟨by simp [main_loop], rfl, rfl, ?_⟩
  intro o
  cases o with
  | ok u =>
    cases u
    simp [main_iteration]
  | error msg => simp [main_iteration]

/-- Witness for C10 on a concrete run: a clean cycle then a failing save;
two iterations happen, the first sleeps, the second only logs. -/
theorem c10_witness :
    (main_loop 5 [.ok (), .error "error saving new posts [disk]"]).length
        = 2 ∧
    main_iteration 5 (.ok ()) = [.slept 5] ∧
    main_iteration 5 (.error "error saving new posts [disk]") =
      [.loggedError "error saving new posts [disk]"] :=
  ⟨(c10_sleep_only_after_clean_cycle 5
      [.ok (), .error "error saving new posts [disk]"]
      "error saving new posts [disk]").1,
    (c10_sleep_only_after_clean_cycle 5
      [.ok (), .error "error saving new posts [disk]"]
      "error saving new posts [disk]").2.1,
    (c10_sleep_only_after_clean_cycle 5
      [.ok (), .error "error saving new posts [disk]"]
      "error saving new posts [disk]").2.2.1⟩

/-- C1 counterexample: the loop checks `unique_id not in known_posts`
against the frozen known set only, never against `found_posts` itself, so
a single fetch returning two raw items with the same unknown identifier
`u1` writes an entry with TWO `u1` rows to the Cycle Result — refuting
"at most one entry with that identifier". -/
theorem c1_counterexample :
    (check_new_posts []
        (FetchOutcome.posts
          [⟨some ⟨"Car A", some "u1"⟩⟩, ⟨some ⟨"Car A", some "u1"⟩⟩])
        "urlA" "A").entry =
      some ("urlA", [("u1", "Car A"), ("u1", "Car A")]) ∧
    ¬ ((found_posts_loop []
        [⟨some ⟨"Car A", some "u1"⟩⟩,
          ⟨some ⟨"Car A", some "u1"⟩⟩]).countP
        (fun r => r.1 == "u1") ≤ 1) := by decide

/-- C1 amended: the Detection Pipeline dedups only against the frozen
known set, not within the same pass: for every identifier, the number of
entries carrying it in the list written to the Cycle Result is zero when
the identifier is already known, and otherwise equals the number of raw
items of the fetch that extract to it (so intra-pass duplicates each
count as new). -/
theorem c1_amended_dedup_only_against_known (known : List String)
    (ps : List RawPost) (i : String) :
    (found_posts_loop known ps).countP (fun r => r.1 == i) =
      if i ∈ known then 0
      else ps.countP (fun p => (extract_post p).map Prod.fst == some i) := by
  by_cases hk : i ∈ known
  · rw [if_pos hk, List.countP_eq_zero]
    intro r hr hb
    have hnot := known_not_in_found hk ps
    exact hnot (List.mem_map.2 ⟨r, hr, by simpa using hb⟩)
  · rw [if_neg hk]
    induction ps with
    | nil => rfl
    | cons p ps ih =>
      rcases hp : extract_post p with _ | ⟨u, t⟩
      · rw [found_posts_loop_cons_none known ps hp, List.countP_cons, hp,
          ih]
        simp
      · rw [found_posts_loop_cons_some known ps hp, List.countP_cons, hp]
        by_cases hu : u ∈ known
        · rw [if_pos hu, ih]
          have : (u == i) = false := by
            have : u ≠ i := fun h => hk (h ▸ hu)
            simpa using this
          simp [this]
        · rw [if_neg hu, List.countP_cons, ih]
          simp

/-- C9: when the fetch succeeds with a non-empty batch but every
extractable identifier is already in the frozen known set, `found_posts`
is empty, so the task raises `no posts found`, which the outer `except`
logs under the source's subject, and no entry at all is written for the
source into the shared `new_posts` dict. -/
theorem c9_all_known_no_entry (known : List String) (ps : List RawPost)
    (url subject : String) (_hne : ps ≠ [])
    (hall : ∀ p ∈ ps, ∀ uid title,
      extract_post p = some (uid, title) → uid ∈ known) :
    (check_new_posts known (.posts ps) url subject).entry = none ∧
    LogEvent.error (subject ++ " :: no posts found") ∈
      (check_new_posts known (.posts ps) url subject).logs := by
  have hloop := found_posts_loop_eq_nil hall
  unfold check_new_posts
  simp [hloop]

/-- Witness for C9: one fetched item whose id `id1` is already known
produces no entry and the logged `no posts found` error. -/
theorem c9_witness :
    (check_new_posts ["id1"]
        (.posts [⟨some ⟨"Car A", some "id1"⟩⟩]) "u" "A").entry = none ∧
    LogEvent.error ("A" ++ " :: no posts found") ∈
      (check_new_posts ["id1"]
        (.posts [⟨some ⟨"Car A", some "id1"⟩⟩]) "u" "A").logs :=
  c9_all_known_no_entry ["id1"] [⟨some ⟨"Car A", some "id1"⟩⟩] "u" "A"
    (by decide)
    (by
      intro p hp uid title he
      rcases List.mem_cons.1 hp with h | h
      · subst h
        rw [show extract_post ⟨some ⟨"Car A", some "id1"⟩⟩ =
            some ("id1", "Car A") from by decide] at he
        injection he with h1
        injection h1 with h2 h3
        subst h2
        simp
      · cases h)

/-- C2: whenever the cycle trace invokes the Notifier with a non-empty
Cycle Result, every identifier of that result is already present in the
store state at that moment, and a `save_new_posts` of a batch covering
all those identifiers occurs strictly earlier in the trace — notification
never precedes persistence. -/
theorem c2_persist_before_notify (db : DB) (sources : List Source)
    (fetch : Source → FetchOutcome)
    (m : List (String × String × List (String × String)))
    (s : DB) (pre post : List (CycleEvent × DB))
    (h : (run_parallel_scraping db sources fetch).2 =
      pre ++ (CycleEvent.notifyEv m, s) :: post) :
    (∀ i ∈ (flatten_new_posts m).map Prod.fst, i ∈ dbIds s) ∧
    ∃ rows s₀, (CycleEvent.saveEv rows, s₀) ∈ pre ∧
      ∀ i ∈ (flatten_new_posts m).map Prod.fst,
        i ∈ rows.map Prod.fst := by
  rw [run_parallel_scraping_eq] at h
  by_cases hemp : (run_detection (get_known_posts db) sources fetch).isEmpty
  · rw [if_pos hemp] at h
    have hmem : (CycleEvent.notifyEv m, s) ∈
        ([(CycleEvent.noNewEv, db)] : List (CycleEvent × DB)) := by
      have hx := List.mem_append_right pre
        (List.mem_cons_self (CycleEvent.notifyEv m, s) post)
      rw [← h] at hx
      exact hx
    simp at hmem
  · rw [if_neg hemp] at h
    set np := run_detection (get_known_posts db) sources fetch with hnp
    set flat := flatten_new_posts np with hflat
    set db' := save_new_posts db flat with hdb'
    have h2 : [(CycleEvent.saveEv flat, db), (CycleEvent.notifyEv np, db')] =
        pre ++ (CycleEvent.notifyEv m, s) :: post := h
    rcases pre with _ | ⟨a, pre⟩
    · rw [List.nil_append] at h2
      injection h2 with h3 h4
      exact absurd (congrArg Prod.fst h3) (by simp)
    · rcases pre with _ | ⟨b, pre⟩
      · rw [List.cons_append, List.nil_append] at h2
        injection h2 with h3 h4
        injection h4 with h5 h6
        have hm : np = m := by
          have hfst := congrArg Prod.fst h5
          simpa using hfst
        have hs : db' = s := congrArg Prod.snd h5
        constructor
        · intro i hi
          rw [← hs, hdb']
          rcases List.mem_map.1 hi with ⟨r, hr, hri⟩
          have hrf : r ∈ flat := by
            rw [hflat, hm]
            exact hr
          exact hri ▸ batch_ids_mem_save hrf db
        · refine ⟨flat, db, ?_, ?_⟩
          · rw [h3]
            simp
          · intro i hi
            rw [hflat, hm]
            exact hi
      · have hlen := congrArg List.length h2
        simp [List.length_append] at hlen

/-- Witness for C2 at a concrete cycle: an empty store and one source
returning one item; the trace is exactly a save of `id1` followed by the
notification, and `id1` is in the store state paired with the
notification. -/
theorem c2_witness :
    (∀ i ∈ (flatten_new_posts
        [("A", "u", [("id1", "Car")])]).map Prod.fst,
      i ∈ dbIds [("id1", "Car")]) ∧
    ∃ rows s₀,
      (CycleEvent.saveEv rows, s₀) ∈
        ([(CycleEvent.saveEv [("id1", "Car")], ([] : DB))] :
          List (CycleEvent × DB)) ∧
      ∀ i ∈ (flatten_new_posts
          [("A", "u", [("id1", "Car")])]).map Prod.fst,
        i ∈ rows.map Prod.fst :=
  c2_persist_before_notify [] [⟨"u", "A"⟩]
    (fun _ => .posts [⟨some ⟨"Car", some "id1"⟩⟩])
    [("A", "u", [("id1", "Car")])] [("id1", "Car")]
    [(CycleEvent.saveEv [("id1", "Car")], [])] [] (by decide)

/-- C4: a source whose fetch (or driver setup) fails contributes no entry
to the shared dict, logs an error, and the cycle's detection result is
exactly what it would be with that source removed from the configuration
— the other sources' contributions are untouched.  `check_new_posts`
catches every failure internally (it is a total function into
`CheckResult`), so the coordinator's `future.result()` join never sees an
exception from a source task. -/
theorem c4_source_isolation (known : List String) (sources : List Source)
    (fetch : Source → FetchOutcome) (s₀ : Source)
    (hfail : fetch_failed (fetch s₀) = true) :
    (check_new_posts known (fetch s₀) s₀.url s₀.subject).entry = none ∧
    (∃ msg, LogEvent.error msg ∈
      (check_new_posts known (fetch s₀) s₀.url s₀.subject).logs) ∧
    run_detection known sources fetch =
      run_detection known (sources.filter (fun s => s != s₀)) fetch := by
  refine ⟨check_failed_entry_none hfail known s₀.url s₀.subject, ?_, ?_⟩
  · rcases hfs : fetch s₀ with e | e | ps
    · exact ⟨s₀.subject ++ " :: " ++ e, by simp [check_new_posts]⟩
    · exact ⟨s₀.subject ++ " :: error fetching posts [" ++ e ++ "]",
        by simp [check_new_posts]⟩
    · rw [hfs] at hfail
      simp [fetch_failed] at hfail
  · induction sources with
    | nil => rfl
    | cons s ss ih =>
      by_cases hss : s = s₀
      · subst hss
        have hnone : source_entry known fetch s = none :=
          source_entry_none (check_failed_entry_none hfail known s.url s.subject)
        show List.filterMap (source_entry known fetch) (s :: ss) = _
        rw [List.filterMap_cons_none hnone]
        have hdrop : (s != s) = false := by simp
        simpa [run_detection, List.filter_cons, hdrop] using ih
      · have hkeep : (s != s₀) = true := by simp [hss]
        show List.filterMap (source_entry known fetch) (s :: ss) = _
        rw [List.filterMap_cons]
        have hrhs :
            run_detection known ((s :: ss).filter (fun x => x != s₀)) fetch =
              List.filterMap (source_entry known fetch)
                (s :: ss.filter (fun x => x != s₀)) := by
          simp [run_detection, List.filter_cons, hkeep]
        rw [hrhs, List.filterMap_cons]
        cases hse : source_entry known fetch s with
        | none => exact ih
        | some b => exact congrArg (fun l => b :: l) ih

/-- Witness for C4: three sources where B's fetch times out; B writes no
entry, logs the error, and the result equals the run with B removed. -/
theorem c4_witness :
    (check_new_posts []
      ((fun s => if s.subject == "B" then FetchOutcome.fetchError "timeout"
        else FetchOutcome.posts [⟨some ⟨"Car", some "x"⟩⟩])
          (⟨"uB", "B"⟩ : Source))
      (⟨"uB", "B"⟩ : Source).url (⟨"uB", "B"⟩ : Source).subject).entry
        = none ∧
    (∃ msg, LogEvent.error msg ∈
      (check_new_posts []
        ((fun s => if s.subject == "B" then FetchOutcome.fetchError "timeout"
          else FetchOutcome.posts [⟨some ⟨"Car", some "x"⟩⟩])
            (⟨"uB", "B"⟩ : Source))
        (⟨"uB", "B"⟩ : Source).url (⟨"uB", "B"⟩ : Source).subject).logs) ∧
    run_detection [] [⟨"uA", "A"⟩, ⟨"uB", "B"⟩, ⟨"uC", "C"⟩]
        (fun s => if s.subject == "B" then FetchOutcome.fetchError "timeout"
          else FetchOutcome.posts [⟨some ⟨"Car", some "x"⟩⟩]) =
      run_detection []
        (([⟨"uA", "A"⟩, ⟨"uB", "B"⟩, ⟨"uC", "C"⟩] : List Source).filter
          (fun s => s != (⟨"uB", "B"⟩ : Source)))
        (fun s => if s.subject == "B" then FetchOutcome.fetchError "timeout"
          else FetchOutcome.posts [⟨some ⟨"Car", some "x"⟩⟩]) :=
  c4_source_isolation [] [⟨"uA", "A"⟩, ⟨"uB", "B"⟩, ⟨"uC", "C"⟩]
    (fun s => if s.subject == "B" then FetchOutcome.fetchError "timeout"
      else FetchOutcome.posts [⟨some ⟨"Car", some "x"⟩⟩])
    ⟨"uB", "B"⟩ (by decide)

/-- C6: running the Detection Pipeline a second time with the same fetch
results against the store left by a full cycle (detection plus commit)
yields zero new items: no source writes any entry on the second run. -/
theorem c6_second_run_yields_nothing (db : DB) (sources : List Source)
    (fetch : Source → FetchOutcome) :
    run_detection
      (get_known_posts (run_parallel_scraping db sources fetch).1)
      sources fetch = [] := by
  rw [run_detection, List.filterMap_eq_nil_iff]
  intro s hs
  apply source_entry_none
  by_cases hfb : fetch_failed (fetch s)
  · exact check_failed_entry_none hfb _ _ _
  · rcases hfs : fetch s with e | e | ps
    · rw [hfs] at hfb
      simp [fetch_failed] at hfb
    · rw [hfs] at hfb
      simp [fetch_failed] at hfb
    · rw [check_new_posts_posts_entry]
      suffices hloop : found_posts_loop
          (get_known_posts (run_parallel_scraping db sources fetch).1) ps
            = [] by
        simp [hloop]
      apply found_posts_loop_eq_nil
      intro p hp uid title he
      rcases @extracted_covered (get_known_posts db) ps p uid title hp he
        with hk | hf
      · rw [run_parallel_scraping_eq]
        split
        · exact hk
        · exact dbIds_mono hk
      · have hfne : ¬ (found_posts_loop (get_known_posts db) ps).isEmpty := by
          rcases List.mem_map.1 hf with ⟨r, hr, _⟩
          intro hemp
          rw [List.isEmpty_iff] at hemp
          rw [hemp] at hr
          cases hr
        have hentry : (check_new_posts (get_known_posts db) (fetch s)
            s.url s.subject).entry =
            some (s.url, found_posts_loop (get_known_posts db) ps) := by
          rw [hfs, check_new_posts_posts_entry, if_neg hfne]
        have hmem : (s.subject, s.url,
            found_posts_loop (get_known_posts db) ps) ∈
            run_detection (get_known_posts db) sources fetch := by
          rw [run_detection]
          exact List.mem_filterMap.2
            ⟨s, hs, by simp [source_entry, hentry]⟩
        have hnpne : ¬ (run_detection (get_known_posts db) sources
            fetch).isEmpty := by
          intro hx
          rw [List.isEmpty_iff] at hx
          rw [hx] at hmem
          cases hmem
        rcases List.mem_map.1 hf with ⟨r, hr, hruid⟩
        have hrflat : r ∈ flatten_new_posts
            (run_detection (get_known_posts db) sources fetch) := by
          unfold flatten_new_posts
          refine List.mem_flatten.2
            ⟨found_posts_loop (get_known_posts db) ps, ?_, hr⟩
          exact List.mem_map.2
            ⟨(s.subject, s.url, found_posts_loop (get_known_posts db) ps),
              hmem, rfl⟩
        rw [run_parallel_scraping_eq, if_neg hnpne]
        exact hruid ▸ batch_ids_mem_save hrflat db
